import Mathlib

/-
Shallow embedding of the event broker in components/esp32/event.c.

The broker keeps a bounded FIFO queue of events, a single consumer task,
a static dispatch table from event kind to an optional default handler,
and one registered (callback, context) pair.  External collaborators
(the wifi driver and the tcpip adapter) are modelled by an oracle `Env`
giving the return value of each driver call, and every externally
visible call made by the code is recorded in an append-only trace.
-/

namespace EspEvent

/-- esp_err_t success value (esp_err.h). -/
def ESP_OK : Int := 0

/-- esp_err_t generic failure value (esp_err.h). -/
def ESP_FAIL : Int := -1

/-- Modelled from the spec: the event-kind enumeration `system_event_id_t`
(declared in the missing header esp_event.h) is a bounded enumeration with
a fixed upper sentinel; kinds are numbered positionally in declaration
order, matching the positional indexing of the dispatch table. -/
def SYSTEM_EVENT_WIFI_READY : Nat := 0

/-- Event kind: scan finished. -/
def SYSTEM_EVENT_SCAN_DONE : Nat := 1

/-- Event kind: station interface started. -/
def SYSTEM_EVENT_STA_START : Nat := 2

/-- Event kind: station interface stopped. -/
def SYSTEM_EVENT_STA_STOP : Nat := 3

/-- Event kind: station associated to an access point. -/
def SYSTEM_EVENT_STA_CONNECTED : Nat := 4

/-- Event kind: station disassociated. -/
def SYSTEM_EVENT_STA_DISCONNECTED : Nat := 5

/-- Event kind: authentication mode changed. -/
def SYSTEM_EVENT_STA_AUTHMODE_CHANGE : Nat := 6

/-- Event kind: station acquired an IP address. -/
def SYSTEM_EVENT_STA_GOT_IP : Nat := 7

/-- Event kind: access-point interface started. -/
def SYSTEM_EVENT_AP_START : Nat := 8

/-- Event kind: access-point interface stopped. -/
def SYSTEM_EVENT_AP_STOP : Nat := 9

/-- Event kind: a station joined the access point. -/
def SYSTEM_EVENT_AP_STACONNECTED : Nat := 10

/-- Event kind: a station left the access point. -/
def SYSTEM_EVENT_AP_STADISCONNECTED : Nat := 11

/-- Event kind: probe request received. -/
def SYSTEM_EVENT_AP_PROBEREQRECVED : Nat := 12

/-- Upper sentinel of the event-kind enumeration. -/
def SYSTEM_EVENT_MAX : Nat := 13

/-- Network interface selector: WIFI_IF_STA / TCPIP_ADAPTER_IF_STA versus
WIFI_IF_AP / TCPIP_ADAPTER_IF_AP. -/
inductive Iface where
  | STA
  | AP
deriving DecidableEq

/-- tcpip_adapter_ip_info_t: the cached address configuration of an
adapter; IPv4 addresses modelled as naturals, 0 being the any-address
tested by ip4_addr_isany_val. -/
structure IpInfo where
  ip : Nat
  netmask : Nat
  gw : Nat
deriving DecidableEq

/-- system_event_t: the tagged event value.  The kind is `event_id`; of
the payload union only the address-acquired member is ever read or
written by this translation unit (the remaining members feed only the
compiled-out WIFI_DEBUG macro), so the payload is modelled by that
member. -/
structure SystemEvent where
  event_id : Nat
  got_ip : IpInfo
deriving DecidableEq

/-- tcpip_adapter_dhcp_status_t values used by the code. -/
inductive DhcpStatus where
  | TCPIP_ADAPTER_DHCP_INIT
  | TCPIP_ADAPTER_DHCP_STARTED
  | TCPIP_ADAPTER_DHCP_STOPPED
deriving DecidableEq

/-- Externally visible calls and printf logs made by the code, recorded
in an append-only trace.  `enq` records a successful xQueueSendToBack,
`user_cb` records an invocation of the registered user callback. -/
inductive Action where
  | esp_wifi_reg_rxcb (i : Iface) (cb_installed : Bool)
  | esp_wifi_get_mac (i : Iface)
  | tcpip_adapter_get_ip_info (i : Iface)
  | tcpip_adapter_start (i : Iface) (mac : Nat) (info : IpInfo)
  | tcpip_adapter_stop (i : Iface)
  | tcpip_adapter_up (i : Iface)
  | tcpip_adapter_down (i : Iface)
  | tcpip_adapter_dhcpc_get_status (i : Iface)
  | tcpip_adapter_dhcpc_start (i : Iface)
  | esp_wifi_set_sta_ip
  | print_ip_info (info : IpInfo)
  | log_null_event
  | log_no_such_event
  | log_mismatch (id : Nat)
  | log_queue_full (id : Nat)
  | log_post_fail
  | enq (e : SystemEvent)
  | user_cb (cb : Nat) (ctx : Nat) (e : SystemEvent)
deriving DecidableEq

/-- Oracle for the external collaborators: the return value of each
driver / adapter call and the data those calls produce.  Callback
function pointers are modelled as opaque numeric identifiers. -/
structure Env where
  reg_rxcb_sta_input_ret : Int
  reg_rxcb_sta_null_ret : Int
  reg_rxcb_ap_input_ret : Int
  reg_rxcb_ap_null_ret : Int
  get_mac_sta_ret : Int
  get_mac_ap_ret : Int
  set_sta_ip_ret : Int
  sta_mac : Nat
  ap_mac : Nat
  sta_ip_info : IpInfo
  ap_ip_info : IpInfo
  sta_dhcp_status : DhcpStatus
  user_cb_ret : Nat → Nat → SystemEvent → Int

/-- Post-initialization broker state: the created queue (fixed capacity,
FIFO item list with the front at the head), the registered callback
g_event_handler_cb (none models a NULL pointer), the registered context
g_event_ctx, and the trace of external calls made so far. -/
structure SysState where
  capacity : Nat
  items : List SystemEvent
  cb : Option Nat
  ctx : Nat
  trace : List Action
deriving DecidableEq

/-- Append one recorded action to the trace. -/
def emit (st : SysState) (a : Action) : SysState :=
  { st with trace := st.trace ++ [a] }

/-- esp_event_send: xQueueSendToBack with a zero-tick wait.  If the queue
has room the event is appended at the back and ESP_OK is returned;
otherwise the failure is logged and ESP_FAIL is returned with the queue
unchanged. -/
def esp_event_send (st : SysState) (event : SystemEvent) : Int × SysState :=
  if st.items.length < st.capacity then
    (ESP_OK, { st with items := st.items ++ [event],
                       trace := st.trace ++ [.enq event] })
  else
    (ESP_FAIL, emit st (.log_queue_full event.event_id))

/-- system_event_sta_got_ip_default: commit the station address to the
driver (early return on failure, per WIFI_API_CALL_CHECK), then print
the acquired configuration. -/
def system_event_sta_got_ip_default (env : Env) (st : SysState)
    (event : SystemEvent) : Int × SysState :=
  let st1 := emit st .esp_wifi_set_sta_ip
  if env.set_sta_ip_ret ≠ ESP_OK then (env.set_sta_ip_ret, st1)
  else (ESP_OK, emit st1 (.print_ip_info event.got_ip))

/-- system_event_ap_start_handle_default: register the AP inbound-packet
callback, fetch the AP link address, fetch the cached address
configuration, start the AP adapter. -/
def system_event_ap_start_handle_default (env : Env) (st : SysState)
    (_event : SystemEvent) : Int × SysState :=
  let st1 := emit st (.esp_wifi_reg_rxcb .AP true)
  if env.reg_rxcb_ap_input_ret ≠ ESP_OK then (env.reg_rxcb_ap_input_ret, st1)
  else
    let st2 := emit st1 (.esp_wifi_get_mac .AP)
    if env.get_mac_ap_ret ≠ ESP_OK then (env.get_mac_ap_ret, st2)
    else
      let st3 := emit st2 (.tcpip_adapter_get_ip_info .AP)
      (ESP_OK, emit st3 (.tcpip_adapter_start .AP env.ap_mac env.ap_ip_info))

/-- system_event_ap_stop_handle_default: unregister the AP inbound-packet
callback, stop the AP adapter. -/
def system_event_ap_stop_handle_default (env : Env) (st : SysState)
    (_event : SystemEvent) : Int × SysState :=
  let st1 := emit st (.esp_wifi_reg_rxcb .AP false)
  if env.reg_rxcb_ap_null_ret ≠ ESP_OK then (env.reg_rxcb_ap_null_ret, st1)
  else (ESP_OK, emit st1 (.tcpip_adapter_stop .AP))

/-- system_event_sta_start_handle_default: fetch the station link
address, fetch the cached address configuration, start the station
adapter.  Note: no inbound-packet callback is registered here. -/
def system_event_sta_start_handle_default (env : Env) (st : SysState)
    (_event : SystemEvent) : Int × SysState :=
  let st1 := emit st (.esp_wifi_get_mac .STA)
  if env.get_mac_sta_ret ≠ ESP_OK then (env.get_mac_sta_ret, st1)
  else
    let st2 := emit st1 (.tcpip_adapter_get_ip_info .STA)
    (ESP_OK, emit st2 (.tcpip_adapter_start .STA env.sta_mac env.sta_ip_info))

/-- system_event_sta_stop_handle_default: stop the station adapter. -/
def system_event_sta_stop_handle_default (_env : Env) (st : SysState)
    (_event : SystemEvent) : Int × SysState :=
  (ESP_OK, emit st (.tcpip_adapter_stop .STA))

/-- system_event_sta_connected_handle_default: register the station
inbound-packet callback, bring the station link up, query the DHCP
client status; if INIT start the client, if STOPPED read the cached
address configuration and, when ip, netmask and gw are all non-zero,
synthesize a SYSTEM_EVENT_STA_GOT_IP event carrying it and enqueue it
(the WIFI_DEBUG log in the zero branch is compiled out). -/
def system_event_sta_connected_handle_default (env : Env) (st : SysState)
    (_event : SystemEvent) : Int × SysState :=
  let st1 := emit st (.esp_wifi_reg_rxcb .STA true)
  if env.reg_rxcb_sta_input_ret ≠ ESP_OK then (env.reg_rxcb_sta_input_ret, st1)
  else
    let st2 := emit st1 (.tcpip_adapter_up .STA)
    let st3 := emit st2 (.tcpip_adapter_dhcpc_get_status .STA)
    if env.sta_dhcp_status = .TCPIP_ADAPTER_DHCP_INIT then
      (ESP_OK, emit st3 (.tcpip_adapter_dhcpc_start .STA))
    else if env.sta_dhcp_status = .TCPIP_ADAPTER_DHCP_STOPPED then
      let st4 := emit st3 (.tcpip_adapter_get_ip_info .STA)
      let sta_ip := env.sta_ip_info
      if ¬ (sta_ip.ip = 0 ∨ sta_ip.netmask = 0 ∨ sta_ip.gw = 0) then
        (ESP_OK, (esp_event_send st4 ⟨SYSTEM_EVENT_STA_GOT_IP, sta_ip⟩).2)
      else
        (ESP_OK, st4)
    else
      (ESP_OK, st3)

/-- system_event_sta_disconnected_handle_default: bring the station link
down, unregister the station inbound-packet callback. -/
def system_event_sta_disconnected_handle_default (env : Env) (st : SysState)
    (_event : SystemEvent) : Int × SysState :=
  let st1 := emit st (.tcpip_adapter_down .STA)
  let st2 := emit st1 (.esp_wifi_reg_rxcb .STA false)
  if env.reg_rxcb_sta_null_ret ≠ ESP_OK then (env.reg_rxcb_sta_null_ret, st2)
  else (ESP_OK, st2)

/-- Names of the seven default handler functions, used as the function
pointers stored in the dispatch table. -/
inductive HandlerId where
  | sta_start
  | sta_stop
  | sta_connected
  | sta_disconnected
  | sta_got_ip
  | ap_start
  | ap_stop
deriving DecidableEq

/-- Dereference a handler function pointer. -/
def runHandler : HandlerId → Env → SysState → SystemEvent → Int × SysState
  | .sta_start, env, st, e => system_event_sta_start_handle_default env st e
  | .sta_stop, env, st, e => system_event_sta_stop_handle_default env st e
  | .sta_connected, env, st, e => system_event_sta_connected_handle_default env st e
  | .sta_disconnected, env, st, e => system_event_sta_disconnected_handle_default env st e
  | .sta_got_ip, env, st, e => system_event_sta_got_ip_default env st e
  | .ap_start, env, st, e => system_event_ap_start_handle_default env st e
  | .ap_stop, env, st, e => system_event_ap_stop_handle_default env st e

/-- system_event_handle_t: one dispatch-table entry. -/
structure system_event_handle_t where
  event_id : Nat
  event_handle : Option HandlerId
deriving DecidableEq

/-- g_system_event_handle_table: the static dispatch table, in source
order. -/
def g_system_event_handle_table : List system_event_handle_t :=
  [⟨SYSTEM_EVENT_WIFI_READY, none⟩,
   ⟨SYSTEM_EVENT_SCAN_DONE, none⟩,
   ⟨SYSTEM_EVENT_STA_START, some .sta_start⟩,
   ⟨SYSTEM_EVENT_STA_STOP, some .sta_stop⟩,
   ⟨SYSTEM_EVENT_STA_CONNECTED, some .sta_connected⟩,
   ⟨SYSTEM_EVENT_STA_DISCONNECTED, some .sta_disconnected⟩,
   ⟨SYSTEM_EVENT_STA_AUTHMODE_CHANGE, none⟩,
   ⟨SYSTEM_EVENT_STA_GOT_IP, some .sta_got_ip⟩,
   ⟨SYSTEM_EVENT_AP_START, some .ap_start⟩,
   ⟨SYSTEM_EVENT_AP_STOP, some .ap_stop⟩,
   ⟨SYSTEM_EVENT_AP_STACONNECTED, none⟩,
   ⟨SYSTEM_EVENT_AP_STADISCONNECTED, none⟩,
   ⟨SYSTEM_EVENT_AP_PROBEREQRECVED, none⟩,
   ⟨SYSTEM_EVENT_MAX, none⟩]

/-- Positional table lookup g_system_event_handle_table[i] (only reached
by the code under the bound i < SYSTEM_EVENT_MAX). -/
def table_entry (i : Nat) : system_event_handle_t :=
  g_system_event_handle_table.getD i ⟨0, none⟩

/-- Run a possibly-NULL handler pointer, discarding its return value as
the call site does. -/
def runHandlerOpt (oh : Option HandlerId) (env : Env) (st : SysState)
    (e : SystemEvent) : SysState :=
  match oh with
  | none => st
  | some h => (runHandler h env st e).2

/-- esp_wifi_post_event_to_user: invoke the registered callback with the
registered context, if one is installed. -/
def esp_wifi_post_event_to_user (env : Env) (st : SysState)
    (event : SystemEvent) : Int × SysState :=
  match st.cb with
  | some c => (env.user_cb_ret c st.ctx event, emit st (.user_cb c st.ctx event))
  | none => (ESP_OK, st)

/-- esp_system_event_debug: a null event is logged and ESP_FAIL is
returned; otherwise the switch prints only through the compiled-out
WIFI_DEBUG macro for every kind below the sentinel, and the default
branch prints an error for any other kind. -/
def esp_system_event_debug (st : SysState) (event : Option SystemEvent) :
    Int × SysState :=
  match event with
  | none => (ESP_FAIL, emit st .log_null_event)
  | some ev =>
      if ev.event_id < SYSTEM_EVENT_MAX then (ESP_OK, st)
      else (ESP_OK, emit st .log_no_such_event)

/-- esp_system_event_handler: per-event handling.  A null event is
logged and dropped with ESP_FAIL.  Otherwise the debug print runs (its
result is discarded), then the dispatch-table guard: in range and
matching stored kind runs the entry's handler if present (its result
discarded); otherwise the mismatch is logged.  In every non-null case
the event is then posted to the registered user callback. -/
def esp_system_event_handler (env : Env) (st : SysState)
    (event : Option SystemEvent) : Int × SysState :=
  match event with
  | none => (ESP_FAIL, emit st .log_null_event)
  | some ev =>
      let st1 := (esp_system_event_debug st (some ev)).2
      if ev.event_id < SYSTEM_EVENT_MAX ∧
          (table_entry ev.event_id).event_id = ev.event_id then
        esp_wifi_post_event_to_user env
          (runHandlerOpt (table_entry ev.event_id).event_handle env st1 ev) ev
      else
        esp_wifi_post_event_to_user env (emit st1 (.log_mismatch ev.event_id)) ev

/-- One iteration of the esp_system_event_task loop: if the queue is
empty the task stays blocked in xQueueReceive (state unchanged);
otherwise the front event is received by value, handled, and an ESP_FAIL
result is logged. -/
def esp_system_event_task_step (env : Env) (st : SysState) : SysState :=
  match st.items with
  | [] => st
  | e :: rest =>
      let st1 := { st with items := rest }
      let r := esp_system_event_handler env st1 (some e)
      if r.1 = ESP_FAIL then emit r.2 .log_post_fail else r.2

/-- Kconfig default of CONFIG_SYSTEM_EVENT_QUEUE_SIZE. -/
def CONFIG_SYSTEM_EVENT_QUEUE_SIZE : Nat := 32

/-- The queue object created by xQueueCreate. -/
structure EventQueue where
  capacity : Nat
  items : List SystemEvent
deriving DecidableEq

/-- The file-scope broker globals as they stand around esp_event_init:
the init flag, the queue handle (none models NULL), the registered
callback and context, plus a count of the broker tasks spawned by
xTaskCreatePinnedToCore. -/
structure BrokerState where
  event_init_flag : Bool
  g_event_handler : Option EventQueue
  g_event_handler_cb : Option Nat
  g_event_ctx : Nat
  tasks_started : Nat
deriving DecidableEq

/-- esp_event_init: guarded by event_init_flag; installs the callback
pair, creates the queue and spawns the broker task.  Faithful to the
source, the flag is read but never written. -/
def esp_event_init (cb : Option Nat) (ctx : Nat) (st : BrokerState) :
    Int × BrokerState :=
  if st.event_init_flag then (ESP_FAIL, st)
  else
    (ESP_OK,
     { event_init_flag := st.event_init_flag,
       g_event_handler := some ⟨CONFIG_SYSTEM_EVENT_QUEUE_SIZE, []⟩,
       g_event_handler_cb := cb,
       g_event_ctx := ctx,
       tasks_started := st.tasks_started + 1 })

/-- esp_event_set_cb: install a new (callback, context) pair; the return
value is the previous callback only. -/
def esp_event_set_cb (cb : Option Nat) (ctx : Nat) (st : BrokerState) :
    Option Nat × BrokerState :=
  (st.g_event_handler_cb,
   { st with g_event_handler_cb := cb, g_event_ctx := ctx })

/-- esp_event_get_handler: expose the queue handle. -/
def esp_event_get_handler (st : BrokerState) : Option EventQueue :=
  st.g_event_handler

/-- The event recorded by a successful enqueue action, if any. -/
def Action.enqEvent : Action → Option SystemEvent
  | .enq e => some e
  | _ => none

/-- The event recorded by a user-callback invocation, if any. -/
def Action.userCbEvent : Action → Option SystemEvent
  | .user_cb _ _ e => some e
  | _ => none

/-- The events a trace shows were successfully enqueued, in order. -/
def enqueuedEvents (tr : List Action) : List SystemEvent :=
  tr.filterMap Action.enqEvent

/-- The events a trace shows were delivered to the user callback, in
order. -/
def deliveredEvents (tr : List Action) : List SystemEvent :=
  tr.filterMap Action.userCbEvent

/-- FIFO invariant: the sequence of successfully enqueued events equals
the sequence already delivered to the user callback followed by the
events still waiting in the queue. -/
def QueueInv (st : SysState) : Prop :=
  enqueuedEvents st.trace = deliveredEvents st.trace ++ st.items

instance (st : SysState) : Decidable (QueueInv st) := by
  unfold QueueInv
  infer_instance

/-- The return value of each default handler, which the dispatch site
discards: ESP_OK unless one of the WIFI_API_CALL_CHECK guarded driver
calls reports a different code, in which case that code is returned. -/
def runHandler_ret : HandlerId → Env → Int
  | .sta_start, env =>
      if env.get_mac_sta_ret ≠ ESP_OK then env.get_mac_sta_ret else ESP_OK
  | .sta_stop, _ => ESP_OK
  | .sta_connected, env =>
      if env.reg_rxcb_sta_input_ret ≠ ESP_OK then env.reg_rxcb_sta_input_ret
      else ESP_OK
  | .sta_disconnected, env =>
      if env.reg_rxcb_sta_null_ret ≠ ESP_OK then env.reg_rxcb_sta_null_ret
      else ESP_OK
  | .sta_got_ip, env =>
      if env.set_sta_ip_ret ≠ ESP_OK then env.set_sta_ip_ret else ESP_OK
  | .ap_start, env =>
      if env.reg_rxcb_ap_input_ret ≠ ESP_OK then env.reg_rxcb_ap_input_ret
      else if env.get_mac_ap_ret ≠ ESP_OK then env.get_mac_ap_ret else ESP_OK
  | .ap_stop, env =>
      if env.reg_rxcb_ap_null_ret ≠ ESP_OK then env.reg_rxcb_ap_null_ret
      else ESP_OK

/-- The value the default-handler stage of esp_system_event_handler
computes and discards for an event of the given kind: the table entry's
handler result when the guard passes and a handler is present, ESP_OK
otherwise. -/
def default_handler_ret (env : Env) (id : Nat) : Int :=
  if id < SYSTEM_EVENT_MAX ∧ (table_entry id).event_id = id then
    match (table_entry id).event_handle with
    | some h => runHandler_ret h env
    | none => ESP_OK
  else ESP_OK

/-- Whether an action is a registration of an inbound-packet callback
with the driver. -/
def is_reg_rxcb : Action → Bool
  | .esp_wifi_reg_rxcb _ _ => true
  | _ => false

/-- Fixture: an environment in which every driver call succeeds and the
DHCP client has not yet been started. -/
def envOK : Env :=
  ⟨ESP_OK, ESP_OK, ESP_OK, ESP_OK, ESP_OK, ESP_OK, ESP_OK, 1, 2,
   ⟨175, 255, 161⟩, ⟨200, 255, 201⟩, .TCPIP_ADAPTER_DHCP_INIT,
   fun _ _ _ => ESP_OK⟩

/-- Fixture: every driver call succeeds, the DHCP client was stopped and
a fully populated static configuration is cached. -/
def envStop : Env :=
  { envOK with sta_dhcp_status := .TCPIP_ADAPTER_DHCP_STOPPED }

/-- Fixture: registering the station inbound-packet callback fails. -/
def envFail : Env :=
  { envOK with reg_rxcb_sta_input_ret := ESP_FAIL }

/-- Fixture events of various kinds. -/
def evF : SystemEvent := ⟨SYSTEM_EVENT_STA_STOP, ⟨0, 0, 0⟩⟩

/-- Fixture event with no default handler. -/
def evG : SystemEvent := ⟨SYSTEM_EVENT_WIFI_READY, ⟨0, 0, 0⟩⟩

/-- Fixture station-associated event. -/
def evConn : SystemEvent := ⟨SYSTEM_EVENT_STA_CONNECTED, ⟨0, 0, 0⟩⟩

/-- Fixture event with an out-of-range kind. -/
def evOut : SystemEvent := ⟨99, ⟨0, 0, 0⟩⟩

/-- Fixture access-point-start event. -/
def evApS : SystemEvent := ⟨SYSTEM_EVENT_AP_START, ⟨0, 0, 0⟩⟩

/-- Fixture post-initialization state with an empty queue and callback 1
registered with context 7. -/
def st0 : SysState := ⟨32, [], some 1, 7, []⟩

/-- Fixture state holding one enqueued event. -/
def stF : SysState := ⟨32, [evF], some 1, 7, [.enq evF]⟩

/-- Fixture state whose queue is at capacity. -/
def stFull : SysState := ⟨1, [evG], some 1, 7, [.enq evG]⟩

/-- Fixture state with a station-associated event at the front. -/
def stC6 : SysState := ⟨32, [evConn, evG], some 1, 7, [.enq evConn, .enq evG]⟩

theorem enqueuedEvents_append (t1 t2 : List Action) :
    enqueuedEvents (t1 ++ t2) = enqueuedEvents t1 ++ enqueuedEvents t2 :=
  List.filterMap_append t1 t2 _

theorem deliveredEvents_append (t1 t2 : List Action) :
    deliveredEvents (t1 ++ t2) = deliveredEvents t1 ++ deliveredEvents t2 :=
  List.filterMap_append t1 t2 _

/-- A state reached from `st` by code that only records non-delivery
actions and appends to the queue exactly the events it successfully
enqueued. -/
def HandlerExt (st st' : SysState) : Prop :=
  ∃ tr, st'.trace = st.trace ++ tr
    ∧ st'.items = st.items ++ enqueuedEvents tr
    ∧ deliveredEvents tr = []
    ∧ st'.capacity = st.capacity ∧ st'.cb = st.cb ∧ st'.ctx = st.ctx

theorem handlerExt_refl (st : SysState) : HandlerExt st st :=
  ⟨[], by simp [enqueuedEvents, deliveredEvents]⟩

theorem handlerExt_trans {s1 s2 s3 : SysState} (h1 : HandlerExt s1 s2)
    (h2 : HandlerExt s2 s3) : HandlerExt s1 s3 := by
  obtain ⟨t1, e1, i1, d1, c1, b1, x1⟩ := h1
  obtain ⟨t2, e2, i2, d2, c2, b2, x2⟩ := h2
  refine ⟨t1 ++ t2, ?_, ?_, ?_, ?_, ?_, ?_⟩
  · rw [e2, e1, List.append_assoc]
  · rw [i2, i1, enqueuedEvents_append, List.append_assoc]
  · rw [deliveredEvents_append, d1, d2]; rfl
  · rw [c2, c1]
  · rw [b2, b1]
  · rw [x2, x1]

theorem enqueuedEvents_single_none {a : Action} (h : a.enqEvent = none) :
    enqueuedEvents [a] = [] := by
  simp [enqueuedEvents, h]

theorem handlerExt_of_eq {st s1 s2 : SysState} (h : HandlerExt st s1)
    (he : s1 = s2) : HandlerExt st s2 := he ▸ h

theorem enqueuedEvents_single_enq (e : SystemEvent) :
    enqueuedEvents [Action.enq e] = [e] := by
  simp [enqueuedEvents, Action.enqEvent]

theorem deliveredEvents_single_none {a : Action} (h : a.userCbEvent = none) :
    deliveredEvents [a] = [] := by
  simp [deliveredEvents, h]

theorem deliveredEvents_single_cb (c x : Nat) (e : SystemEvent) :
    deliveredEvents [Action.user_cb c x e] = [e] := by
  simp [deliveredEvents, Action.userCbEvent]

theorem handlerExt_emit {st st' : SysState} (h : HandlerExt st st')
    (a : Action) (h1 : a.enqEvent = none) (h2 : a.userCbEvent = none) :
    HandlerExt st (emit st' a) := by
  obtain ⟨t, e1, i1, d1, c1, b1, x1⟩ := h
  refine ⟨t ++ [a], ?_, ?_, ?_, c1, b1, x1⟩
  · rw [emit, e1, List.append_assoc]
  · rw [emit]
    show st'.items = st.items ++ enqueuedEvents (t ++ [a])
    rw [enqueuedEvents_append, enqueuedEvents_single_none h1, List.append_nil, i1]
  · rw [deliveredEvents_append, d1, deliveredEvents_single_none h2]
    rfl

theorem handlerExt_send {st st' : SysState} (h : HandlerExt st st')
    (e : SystemEvent) : HandlerExt st (esp_event_send st' e).2 := by
  obtain ⟨t, e1, i1, d1, c1, b1, x1⟩ := h
  unfold esp_event_send
  split_ifs with hfull
  · refine ⟨t ++ [.enq e], ?_, ?_, ?_, c1, b1, x1⟩
    · rw [e1, List.append_assoc]
    · rw [enqueuedEvents_append, enqueuedEvents_single_enq, i1, List.append_assoc]
    · rw [deliveredEvents_append, d1, deliveredEvents_single_none (by rfl)]
      rfl
  · refine ⟨t ++ [.log_queue_full e.event_id], ?_, ?_, ?_, c1, b1, x1⟩
    · rw [emit, e1, List.append_assoc]
    · rw [emit]
      show st'.items = st.items ++ enqueuedEvents (t ++ [.log_queue_full e.event_id])
      rw [enqueuedEvents_append, enqueuedEvents_single_none (by rfl), List.append_nil, i1]
    · rw [deliveredEvents_append, d1, deliveredEvents_single_none (by rfl)]
      rfl

theorem handlerExt_emit1 (st : SysState) (a : Action) (h1 : a.enqEvent = none)
    (h2 : a.userCbEvent = none) : HandlerExt st (emit st a) :=
  handlerExt_emit (handlerExt_refl st) a h1 h2

theorem handlerExt_runHandler (h : HandlerId) (env : Env) (st : SysState)
    (e : SystemEvent) : HandlerExt st (runHandler h env st e).2 := by
  cases h with
  | sta_start =>
      simp only [runHandler, system_event_sta_start_handle_default]
      split_ifs <;> dsimp only
      · exact handlerExt_emit1 _ _ (by rfl) (by rfl)
      · exact handlerExt_emit (handlerExt_emit (handlerExt_emit1 _ _ (by rfl)
          (by rfl)) _ (by rfl) (by rfl)) _ (by rfl) (by rfl)
  | sta_stop =>
      simp only [runHandler, system_event_sta_stop_handle_default]
      exact handlerExt_emit1 _ _ (by rfl) (by rfl)
  | sta_connected =>
      simp only [runHandler, system_event_sta_connected_handle_default]
      split_ifs <;> dsimp only
      · exact handlerExt_emit1 _ _ (by rfl) (by rfl)
      · exact handlerExt_emit (handlerExt_emit (handlerExt_emit (handlerExt_emit1
          _ _ (by rfl) (by rfl)) _ (by rfl) (by rfl)) _ (by rfl) (by rfl)) _
          (by rfl) (by rfl)
      · exact handlerExt_emit (handlerExt_emit (handlerExt_emit (handlerExt_emit1
          _ _ (by rfl) (by rfl)) _ (by rfl) (by rfl)) _ (by rfl) (by rfl)) _
          (by rfl) (by rfl)
      · exact handlerExt_send (handlerExt_emit (handlerExt_emit (handlerExt_emit
          (handlerExt_emit1 _ _ (by rfl) (by rfl)) _ (by rfl) (by rfl)) _ (by rfl)
          (by rfl)) _ (by rfl) (by rfl)) _
      · exact handlerExt_emit (handlerExt_emit (handlerExt_emit1 _ _ (by rfl)
          (by rfl)) _ (by rfl) (by rfl)) _ (by rfl) (by rfl)
  | sta_disconnected =>
      simp only [runHandler, system_event_sta_disconnected_handle_default]
      split_ifs <;> dsimp only <;>
        exact handlerExt_emit (handlerExt_emit1 _ _ (by rfl) (by rfl)) _ (by rfl)
          (by rfl)
  | sta_got_ip =>
      simp only [runHandler, system_event_sta_got_ip_default]
      split_ifs <;> dsimp only
      · exact handlerExt_emit1 _ _ (by rfl) (by rfl)
      · exact handlerExt_emit (handlerExt_emit1 _ _ (by rfl) (by rfl)) _ (by rfl)
          (by rfl)
  | ap_start =>
      simp only [runHandler, system_event_ap_start_handle_default]
      split_ifs <;> dsimp only
      · exact handlerExt_emit1 _ _ (by rfl) (by rfl)
      · exact handlerExt_emit (handlerExt_emit1 _ _ (by rfl) (by rfl)) _ (by rfl)
          (by rfl)
      · exact handlerExt_emit (handlerExt_emit (handlerExt_emit (handlerExt_emit1
          _ _ (by rfl) (by rfl)) _ (by rfl) (by rfl)) _ (by rfl) (by rfl)) _
          (by rfl) (by rfl)
  | ap_stop =>
      simp only [runHandler, system_event_ap_stop_handle_default]
      split_ifs <;> dsimp only
      · exact handlerExt_emit1 _ _ (by rfl) (by rfl)
      · exact handlerExt_emit (handlerExt_emit1 _ _ (by rfl) (by rfl)) _ (by rfl)
          (by rfl)

theorem handlerExt_runHandlerOpt (oh : Option HandlerId) (env : Env)
    (st : SysState) (e : SystemEvent) :
    HandlerExt st (runHandlerOpt oh env st e) := by
  cases oh with
  | none => exact handlerExt_refl st
  | some h => exact handlerExt_runHandler h env st e

theorem handlerExt_debug (st : SysState) (ev : SystemEvent) :
    HandlerExt st (esp_system_event_debug st (some ev)).2 := by
  simp only [esp_system_event_debug]
  split_ifs <;> dsimp only
  · exact handlerExt_refl st
  · exact handlerExt_emit1 _ _ (by rfl) (by rfl)

theorem post_spec (env : Env) (st : SysState) (ev : SystemEvent) (c : Nat)
    (hcb : st.cb = some c) :
    esp_wifi_post_event_to_user env st ev
      = (env.user_cb_ret c st.ctx ev, emit st (.user_cb c st.ctx ev)) := by
  unfold esp_wifi_post_event_to_user
  rw [hcb]

theorem post_ext_spec (env : Env) {st st2 : SysState} (ev : SystemEvent)
    (c : Nat) (hcb : st.cb = some c) (hx : HandlerExt st st2) :
    ∃ tr, (esp_wifi_post_event_to_user env st2 ev).2.trace = st.trace ++ tr
      ∧ (esp_wifi_post_event_to_user env st2 ev).2.items
          = st.items ++ enqueuedEvents tr
      ∧ deliveredEvents tr = [ev]
      ∧ (esp_wifi_post_event_to_user env st2 ev).2.capacity = st.capacity
      ∧ (esp_wifi_post_event_to_user env st2 ev).2.cb = st.cb
      ∧ (esp_wifi_post_event_to_user env st2 ev).2.ctx = st.ctx := by
  obtain ⟨tr2, htr, hit, hdel, hcap, hcb2, hctx⟩ := hx
  rw [post_spec env st2 ev c (hcb2.trans hcb)]
  refine ⟨tr2 ++ [.user_cb c st2.ctx ev], ?_, ?_, ?_, ?_, ?_, ?_⟩
  · show st2.trace ++ [Action.user_cb c st2.ctx ev]
        = st.trace ++ (tr2 ++ [Action.user_cb c st2.ctx ev])
    rw [htr, List.append_assoc]
  · show st2.items
        = st.items ++ enqueuedEvents (tr2 ++ [Action.user_cb c st2.ctx ev])
    rw [enqueuedEvents_append, enqueuedEvents_single_none (by rfl),
      List.append_nil, hit]
  · rw [deliveredEvents_append, hdel, deliveredEvents_single_cb]
    rfl
  · exact hcap
  · exact hcb2
  · exact hctx

theorem handler_some_spec (env : Env) (st : SysState) (ev : SystemEvent)
    (c : Nat) (hcb : st.cb = some c) :
    ∃ tr, (esp_system_event_handler env st (some ev)).2.trace = st.trace ++ tr
      ∧ (esp_system_event_handler env st (some ev)).2.items
          = st.items ++ enqueuedEvents tr
      ∧ deliveredEvents tr = [ev]
      ∧ (esp_system_event_handler env st (some ev)).2.capacity = st.capacity
      ∧ (esp_system_event_handler env st (some ev)).2.cb = st.cb
      ∧ (esp_system_event_handler env st (some ev)).2.ctx = st.ctx := by
  by_cases hg : ev.event_id < SYSTEM_EVENT_MAX ∧
      (table_entry ev.event_id).event_id = ev.event_id
  · have h2 : esp_system_event_handler env st (some ev)
        = esp_wifi_post_event_to_user env
            (runHandlerOpt (table_entry ev.event_id).event_handle env
              (esp_system_event_debug st (some ev)).2 ev) ev := by
      simp only [esp_system_event_handler]
      rw [if_pos hg]
    rw [h2]
    exact post_ext_spec env ev c hcb
      (handlerExt_trans (handlerExt_debug st ev) (handlerExt_runHandlerOpt _ _ _ _))
  · have h2 : esp_system_event_handler env st (some ev)
        = esp_wifi_post_event_to_user env
            (emit (esp_system_event_debug st (some ev)).2
              (.log_mismatch ev.event_id)) ev := by
      simp only [esp_system_event_handler]
      rw [if_neg hg]
    rw [h2]
    exact post_ext_spec env ev c hcb
      (handlerExt_emit (handlerExt_debug st ev) _ (by rfl) (by rfl))

theorem step_nil (env : Env) (st : SysState) (h : st.items = []) :
    esp_system_event_task_step env st = st := by
  obtain ⟨cap, items, cb0, ctx0, tr0⟩ := st
  simp only at h
  subst h
  rfl

theorem step_delivers (env : Env) (st : SysState) (e : SystemEvent)
    (rest : List SystemEvent) (c : Nat) (hq : st.items = e :: rest)
    (hcb : st.cb = some c) :
    ∃ synth, (esp_system_event_task_step env st).items = rest ++ synth
      ∧ deliveredEvents (esp_system_event_task_step env st).trace
          = deliveredEvents st.trace ++ [e]
      ∧ enqueuedEvents (esp_system_event_task_step env st).trace
          = enqueuedEvents st.trace ++ synth
      ∧ (esp_system_event_task_step env st).capacity = st.capacity
      ∧ (esp_system_event_task_step env st).cb = st.cb
      ∧ (esp_system_event_task_step env st).ctx = st.ctx := by
  obtain ⟨cap, items, cb0, ctx0, tr0⟩ := st
  simp only at hq hcb
  subst hq
  have hs : esp_system_event_task_step env ⟨cap, e :: rest, cb0, ctx0, tr0⟩
      = (if (esp_system_event_handler env ⟨cap, rest, cb0, ctx0, tr0⟩ (some e)).1
            = ESP_FAIL
         then emit (esp_system_event_handler env
            ⟨cap, rest, cb0, ctx0, tr0⟩ (some e)).2 .log_post_fail
         else (esp_system_event_handler env
            ⟨cap, rest, cb0, ctx0, tr0⟩ (some e)).2) := rfl
  obtain ⟨tr, htr, hit, hdel, hcap, hcbp, hctx⟩ :=
    handler_some_spec env ⟨cap, rest, cb0, ctx0, tr0⟩ e c hcb
  simp only at htr hit hdel hcap hcbp hctx
  rw [hs]
  refine ⟨enqueuedEvents tr, ?_⟩
  split_ifs
  · refine ⟨?_, ?_, ?_, ?_, ?_, ?_⟩
    · show (esp_system_event_handler env ⟨cap, rest, cb0, ctx0, tr0⟩ (some e)).2.items
          = rest ++ enqueuedEvents tr
      exact hit
    · show deliveredEvents
          ((esp_system_event_handler env ⟨cap, rest, cb0, ctx0, tr0⟩
            (some e)).2.trace ++ [Action.log_post_fail])
          = deliveredEvents tr0 ++ [e]
      rw [deliveredEvents_append, deliveredEvents_single_none (by rfl),
        List.append_nil, htr, deliveredEvents_append, hdel]
    · show enqueuedEvents
          ((esp_system_event_handler env ⟨cap, rest, cb0, ctx0, tr0⟩
            (some e)).2.trace ++ [Action.log_post_fail])
          = enqueuedEvents tr0 ++ enqueuedEvents tr
      rw [enqueuedEvents_append, enqueuedEvents_single_none (by rfl),
        List.append_nil, htr, enqueuedEvents_append]
    · exact hcap
    · exact hcbp
    · exact hctx
  · refine ⟨hit, ?_, ?_, hcap, hcbp, hctx⟩
    · rw [htr, deliveredEvents_append, hdel]
    · rw [htr, enqueuedEvents_append]

theorem send_inv (st : SysState) (e : SystemEvent) (hinv : QueueInv st) :
    QueueInv (esp_event_send st e).2 := by
  unfold QueueInv at hinv ⊢
  unfold esp_event_send
  split_ifs <;> dsimp only
  · rw [enqueuedEvents_append, enqueuedEvents_single_enq,
      deliveredEvents_append, deliveredEvents_single_none (by rfl),
      List.append_nil, hinv, List.append_assoc]
  · show enqueuedEvents (st.trace ++ [.log_queue_full e.event_id])
        = deliveredEvents (st.trace ++ [.log_queue_full e.event_id]) ++ st.items
    rw [enqueuedEvents_append, enqueuedEvents_single_none (by rfl),
      deliveredEvents_append, deliveredEvents_single_none (by rfl),
      List.append_nil, List.append_nil, hinv]

theorem step_inv (env : Env) (st : SysState) (c : Nat) (hcb : st.cb = some c)
    (hinv : QueueInv st) : QueueInv (esp_system_event_task_step env st) := by
  cases hq : st.items with
  | nil => rw [step_nil env st hq]; exact hinv
  | cons e rest =>
      obtain ⟨synth, hitems, hdel, henq, _, _, _⟩ :=
        step_delivers env st e rest c hq hcb
      unfold QueueInv at hinv ⊢
      rw [henq, hdel, hitems, hinv, hq]
      simp [List.append_assoc]

theorem runHandler_fst (h : HandlerId) (env : Env) (st : SysState)
    (e : SystemEvent) : (runHandler h env st e).1 = runHandler_ret h env := by
  cases h <;>
    simp only [runHandler, runHandler_ret,
      system_event_sta_start_handle_default,
      system_event_sta_stop_handle_default,
      system_event_sta_connected_handle_default,
      system_event_sta_disconnected_handle_default,
      system_event_sta_got_ip_default,
      system_event_ap_start_handle_default,
      system_event_ap_stop_handle_default] <;>
    (try split_ifs) <;> rfl

theorem table_entry_kind :
    ∀ i, i < g_system_event_handle_table.length → (table_entry i).event_id = i := by
  decide

/-- C1: strict FIFO delivery.  esp_event_send appends at the back of the
queue; one broker iteration dequeues the front event and delivers exactly
that event to the registered user callback, events synthesized during the
iteration land behind every event already queued (never inline), and both
operations preserve the invariant that the enqueue order equals the
delivered order followed by the pending queue, so the callback observes
events in exactly enqueue order. -/
theorem fifo_event_delivery (env : Env) (st : SysState) (e : SystemEvent)
    (c : Nat) (hcb : st.cb = some c) (hinv : QueueInv st) :
    QueueInv (esp_event_send st e).2
    ∧ QueueInv (esp_system_event_task_step env st)
    ∧ (st.items.length < st.capacity →
        (esp_event_send st e).2.items = st.items ++ [e])
    ∧ (∃ t, deliveredEvents (esp_system_event_task_step env st).trace ++ t
          = enqueuedEvents (esp_system_event_task_step env st).trace)
    ∧ (∀ ev rest, st.items = ev :: rest →
        deliveredEvents (esp_system_event_task_step env st).trace
          = deliveredEvents st.trace ++ [ev]
        ∧ ∃ synth, (esp_system_event_task_step env st).items = rest ++ synth) := by
  refine ⟨send_inv st e hinv, step_inv env st c hcb hinv, ?_, ?_, ?_⟩
  · intro h
    unfold esp_event_send
    rw [if_pos h]
  · exact ⟨(esp_system_event_task_step env st).items,
      (step_inv env st c hcb hinv).symm⟩
  · intro ev rest hq
    obtain ⟨synth, hitems, hdel, _, _, _, _⟩ :=
      step_delivers env st ev rest c hq hcb
    exact ⟨hdel, synth, hitems⟩

theorem fifo_event_delivery_witness :
    QueueInv (esp_event_send stF evG).2
    ∧ deliveredEvents (esp_system_event_task_step envOK stF).trace
        = deliveredEvents stF.trace ++ [evF] :=
  ⟨(fifo_event_delivery envOK stF evG 1 rfl (by decide)).1,
   ((fifo_event_delivery envOK stF evG 1 rfl (by decide)).2.2.2.2 evF []
     rfl).1⟩

/-- C2: the station-associated default handler, on finding the DHCP
status stopped, synthesizes exactly one address-acquired event carrying
the cached configuration and enqueues it at the back when ip, netmask
and gw are all non-zero (and the queue has room), and synthesizes
nothing and takes no further action when any of them is zero. -/
theorem sta_connected_static_ip_synthesis (env : Env) (st : SysState)
    (e : SystemEvent) (hreg : env.reg_rxcb_sta_input_ret = ESP_OK)
    (hst : env.sta_dhcp_status = .TCPIP_ADAPTER_DHCP_STOPPED) :
    (env.sta_ip_info.ip ≠ 0 → env.sta_ip_info.netmask ≠ 0 →
      env.sta_ip_info.gw ≠ 0 → st.items.length < st.capacity →
      system_event_sta_connected_handle_default env st e
        = (ESP_OK,
           { st with
             items := st.items ++ [⟨SYSTEM_EVENT_STA_GOT_IP, env.sta_ip_info⟩],
             trace := st.trace ++
               [.esp_wifi_reg_rxcb .STA true, .tcpip_adapter_up .STA,
                .tcpip_adapter_dhcpc_get_status .STA,
                .tcpip_adapter_get_ip_info .STA,
                .enq ⟨SYSTEM_EVENT_STA_GOT_IP, env.sta_ip_info⟩] }))
    ∧ ((env.sta_ip_info.ip = 0 ∨ env.sta_ip_info.netmask = 0 ∨
        env.sta_ip_info.gw = 0) →
      system_event_sta_connected_handle_default env st e
        = (ESP_OK,
           { st with
             trace := st.trace ++
               [.esp_wifi_reg_rxcb .STA true, .tcpip_adapter_up .STA,
                .tcpip_adapter_dhcpc_get_status .STA,
                .tcpip_adapter_get_ip_info .STA] })) := by
  constructor
  · intro h1 h2 h3 hroom
    simp [system_event_sta_connected_handle_default, esp_event_send, emit,
      hreg, hst, h1, h2, h3, hroom, List.append_assoc]
  · intro hz
    have hnz : ¬ ¬ (env.sta_ip_info.ip = 0 ∨ env.sta_ip_info.netmask = 0 ∨
        env.sta_ip_info.gw = 0) := not_not_intro hz
    simp [system_event_sta_connected_handle_default, emit, hreg, hst, hnz,
      List.append_assoc]

theorem sta_connected_static_ip_witness :
    (envStop.sta_ip_info.ip ≠ 0 → envStop.sta_ip_info.netmask ≠ 0 →
      envStop.sta_ip_info.gw ≠ 0 → st0.items.length < st0.capacity →
      system_event_sta_connected_handle_default envStop st0 evConn
        = (ESP_OK,
           { st0 with
             items := st0.items ++
               [⟨SYSTEM_EVENT_STA_GOT_IP, envStop.sta_ip_info⟩],
             trace := st0.trace ++
               [.esp_wifi_reg_rxcb .STA true, .tcpip_adapter_up .STA,
                .tcpip_adapter_dhcpc_get_status .STA,
                .tcpip_adapter_get_ip_info .STA,
                .enq ⟨SYSTEM_EVENT_STA_GOT_IP, envStop.sta_ip_info⟩] }))
    ∧ envStop.sta_ip_info.ip ≠ 0 :=
  ⟨(sta_connected_static_ip_synthesis envStop st0 evConn rfl rfl).1,
   by decide⟩

/-- C3 (code bug in the source): esp_event_init never sets
event_init_flag, so a second call is not rejected: it returns ESP_OK,
overwrites the registered callback and context, allocates a fresh queue
and spawns a second broker task, where the spec requires an
already-initialized error with no state change. -/
theorem esp_event_init_double_init_not_rejected :
    (esp_event_init (some 1) 11 ⟨false, none, none, 0, 0⟩).1 = ESP_OK
    ∧ (esp_event_init (some 1) 11 ⟨false, none, none, 0, 0⟩).2.event_init_flag
        = false
    ∧ (esp_event_init (some 2) 22
        (esp_event_init (some 1) 11 ⟨false, none, none, 0, 0⟩).2).1 = ESP_OK
    ∧ (esp_event_init (some 2) 22
        (esp_event_init (some 1) 11
          ⟨false, none, none, 0, 0⟩).2).2.g_event_handler_cb = some 2
    ∧ (esp_event_init (some 2) 22
        (esp_event_init (some 1) 11
          ⟨false, none, none, 0, 0⟩).2).2.g_event_ctx = 22
    ∧ (esp_event_init (some 2) 22
        (esp_event_init (some 1) 11
          ⟨false, none, none, 0, 0⟩).2).2.tasks_started = 2 := by
  decide

/-- C4: a non-null event whose kind is out of range or whose table entry
kind mismatches skips the default-handler stage (only the debug and
mismatch logs are emitted) yet is still posted to the registered user
callback; an in-range kind whose entry has no handler is a no-op default
stage followed by the user callback. -/
theorem invalid_event_skips_default_stage (env : Env) (st : SysState)
    (e : SystemEvent) (c : Nat) (hcb : st.cb = some c) :
    (¬ (e.event_id < SYSTEM_EVENT_MAX ∧
          (table_entry e.event_id).event_id = e.event_id) →
      esp_system_event_handler env st (some e)
        = (env.user_cb_ret c st.ctx e,
           { st with trace := st.trace ++
               [.log_no_such_event, .log_mismatch e.event_id,
                .user_cb c st.ctx e] }))
    ∧ (e.event_id < SYSTEM_EVENT_MAX →
        (table_entry e.event_id).event_handle = none →
      esp_system_event_handler env st (some e)
        = (env.user_cb_ret c st.ctx e,
           { st with trace := st.trace ++ [.user_cb c st.ctx e] })) := by
  constructor
  · intro hg
    have hid : ¬ e.event_id < SYSTEM_EVENT_MAX := by
      intro hlt
      exact hg ⟨hlt, table_entry_kind e.event_id (Nat.lt_trans hlt (by decide))⟩
    simp only [esp_system_event_handler]
    rw [if_neg hg]
    have hdbg : (esp_system_event_debug st (some e)).2
        = emit st .log_no_such_event := by
      simp only [esp_system_event_debug]
      rw [if_neg hid]
    rw [hdbg,
      post_spec env (emit (emit st .log_no_such_event)
        (.log_mismatch e.event_id)) e c hcb]
    simp [emit, List.append_assoc]
  · intro hlt hnone
    have hg : e.event_id < SYSTEM_EVENT_MAX ∧
        (table_entry e.event_id).event_id = e.event_id :=
      ⟨hlt, table_entry_kind e.event_id (Nat.lt_trans hlt (by decide))⟩
    simp only [esp_system_event_handler]
    rw [if_pos hg]
    have hdbg : (esp_system_event_debug st (some e)).2 = st := by
      simp only [esp_system_event_debug]
      rw [if_pos hlt]
    rw [hdbg, hnone]
    rw [show runHandlerOpt none env st e = st from rfl, post_spec env st e c hcb]
    simp [emit]

theorem invalid_event_skips_default_stage_witness :
    esp_system_event_handler envOK st0 (some evOut)
      = (envOK.user_cb_ret 1 st0.ctx evOut,
         { st0 with trace := st0.trace ++
             [.log_no_such_event, .log_mismatch evOut.event_id,
              .user_cb 1 st0.ctx evOut] }) :=
  (invalid_event_skips_default_stage envOK st0 evOut 1 rfl).1 (by decide)

/-- C5: enqueue is non-blocking: with room the event is appended at the
back and ESP_OK returned; on a full queue ESP_FAIL is returned
immediately, the event is dropped and the queue contents and order are
unmodified. -/
theorem esp_event_send_non_blocking (st : SysState) (e : SystemEvent) :
    (st.items.length < st.capacity →
      esp_event_send st e
        = (ESP_OK,
           { st with
             items := st.items ++ [e],
             trace := st.trace ++ [.enq e] }))
    ∧ (¬ st.items.length < st.capacity →
      esp_event_send st e
        = (ESP_FAIL,
           { st with trace := st.trace ++ [.log_queue_full e.event_id] })) := by
  constructor <;> intro h <;> unfold esp_event_send
  · rw [if_pos h]
  · rw [if_neg h]
    rfl

theorem esp_event_send_non_blocking_witness :
    esp_event_send st0 evF
      = (ESP_OK,
         { st0 with
           items := st0.items ++ [evF],
           trace := st0.trace ++ [.enq evF] })
    ∧ esp_event_send stFull evF
      = (ESP_FAIL,
         { stFull with trace := stFull.trace ++ [.log_queue_full evF.event_id] }) :=
  ⟨(esp_event_send_non_blocking st0 evF).1 (by decide),
   (esp_event_send_non_blocking stFull evF).2 (by decide)⟩

/-- C6: a failure code returned by the default handler (whose result the
dispatch site discards) suppresses neither delivery of the same event to
the registered user callback nor progress of the consumer loop: the
event is delivered, synthesized events sit behind the remaining queue,
and the next iteration delivers the next queued event. -/
theorem handler_failure_not_fatal (env : Env) (st : SysState)
    (e : SystemEvent) (rest : List SystemEvent) (c : Nat)
    (hq : st.items = e :: rest) (hcb : st.cb = some c)
    (_hfail : default_handler_ret env e.event_id = ESP_FAIL) :
    deliveredEvents (esp_system_event_task_step env st).trace
      = deliveredEvents st.trace ++ [e]
    ∧ (∃ synth, (esp_system_event_task_step env st).items = rest ++ synth)
    ∧ (∀ e2 rest2, rest = e2 :: rest2 →
        deliveredEvents
            (esp_system_event_task_step env
              (esp_system_event_task_step env st)).trace
          = deliveredEvents st.trace ++ [e, e2]) := by
  obtain ⟨synth, hitems, hdel, henq, hcap, hcbp, hctx⟩ :=
    step_delivers env st e rest c hq hcb
  refine ⟨hdel, ⟨synth, hitems⟩, ?_⟩
  intro e2 rest2 hr
  have hq2 : (esp_system_event_task_step env st).items
      = e2 :: (rest2 ++ synth) := by
    rw [hitems, hr]
    rfl
  have hcb2 : (esp_system_event_task_step env st).cb = some c :=
    hcbp.trans hcb
  obtain ⟨synth2, hitems2, hdel2, _, _, _, _⟩ :=
    step_delivers env (esp_system_event_task_step env st) e2
      (rest2 ++ synth) c hq2 hcb2
  rw [hdel2, hdel]
  simp

theorem handler_failure_not_fatal_witness :
    default_handler_ret envFail evConn.event_id = ESP_FAIL
    ∧ deliveredEvents (esp_system_event_task_step envFail stC6).trace
        = deliveredEvents stC6.trace ++ [evConn] :=
  ⟨by decide,
   (handler_failure_not_fatal envFail stC6 evConn [evG] 1 rfl rfl
     (by decide)).1⟩

/-- C7 counterexample: the value esp_event_set_cb returns is identical
for two states that agree on the previous callback but differ in the
previous context, so the call does not return the previous (callback,
context) pair as claimed; it returns the previous callback only. -/
theorem set_cb_return_ignores_prev_ctx :
    (esp_event_set_cb (some 9) 99 ⟨false, none, some 5, 1, 0⟩).1
      = (esp_event_set_cb (some 9) 99 ⟨false, none, some 5, 2, 0⟩).1
    ∧ (⟨false, none, some 5, 1, 0⟩ : BrokerState).g_event_ctx
      ≠ (⟨false, none, some 5, 2, 0⟩ : BrokerState).g_event_ctx := by
  decide

/-- C7 (amended): esp_event_set_cb installs the new (callback, context)
pair and returns the previous callback; the previous context is not part
of the return value. -/
theorem esp_event_set_cb_installs_returns_prev_cb (cb : Option Nat)
    (ctx : Nat) (st : BrokerState) :
    esp_event_set_cb cb ctx st
      = (st.g_event_handler_cb,
         { st with g_event_handler_cb := cb, g_event_ctx := ctx }) := rfl

/-- C8 counterexample: the station-start default handler registers no
inbound-packet callback with the driver (its trace contains no
esp_wifi_reg_rxcb call), while the access-point-start handler does. -/
theorem sta_start_registers_no_rx_callback :
    ((runHandler .sta_start envOK st0
        ⟨SYSTEM_EVENT_STA_START, ⟨0, 0, 0⟩⟩).2.trace.any is_reg_rxcb) = false
    ∧ ((runHandler .ap_start envOK st0 evApS).2.trace.any is_reg_rxcb)
        = true := by
  decide

/-- C8 (amended): the access-point-start default handler registers the
inbound-packet callback, fetches the link address, fetches the cached
address configuration and marks the adapter active; the station-start
default handler fetches the link address, fetches the cached address
configuration and marks the adapter active but registers no
inbound-packet callback. -/
theorem adapter_start_default_handlers (env : Env) (st : SysState)
    (e : SystemEvent) (hap1 : env.reg_rxcb_ap_input_ret = ESP_OK)
    (hap2 : env.get_mac_ap_ret = ESP_OK)
    (hsta : env.get_mac_sta_ret = ESP_OK) :
    system_event_ap_start_handle_default env st e
      = (ESP_OK,
         { st with trace := st.trace ++
             [.esp_wifi_reg_rxcb .AP true, .esp_wifi_get_mac .AP,
              .tcpip_adapter_get_ip_info .AP,
              .tcpip_adapter_start .AP env.ap_mac env.ap_ip_info] })
    ∧ system_event_sta_start_handle_default env st e
      = (ESP_OK,
         { st with trace := st.trace ++
             [.esp_wifi_get_mac .STA, .tcpip_adapter_get_ip_info .STA,
              .tcpip_adapter_start .STA env.sta_mac env.sta_ip_info] }) := by
  constructor
  · simp [system_event_ap_start_handle_default, emit, hap1, hap2,
      List.append_assoc]
  · simp [system_event_sta_start_handle_default, emit, hsta,
      List.append_assoc]

theorem adapter_start_default_handlers_witness :
    system_event_ap_start_handle_default envOK st0 evApS
      = (ESP_OK,
         { st0 with trace := st0.trace ++
             [.esp_wifi_reg_rxcb .AP true, .esp_wifi_get_mac .AP,
              .tcpip_adapter_get_ip_info .AP,
              .tcpip_adapter_start .AP envOK.ap_mac envOK.ap_ip_info] }) :=
  (adapter_start_default_handlers envOK st0 evApS rfl rfl rfl).1

/-- C9: a null event reaching the per-event handling is logged and
dropped: no default handler runs, the user callback is not invoked, the
queue is untouched and ESP_FAIL is returned. -/
theorem null_event_dropped (env : Env) (st : SysState) :
    esp_system_event_handler env st none
      = (ESP_FAIL, { st with trace := st.trace ++ [.log_null_event] }) := rfl

/-- C10: every dispatch-table entry from index 0 through the sentinel
stores its own index as kind, so for every non-null in-range event the
mismatch branch is unreachable: the per-event handling equals running
the entry's handler (when present) followed by the user-callback
stage. -/
theorem dispatch_table_self_consistent (env : Env) (st : SysState)
    (e : SystemEvent) (hin : e.event_id < SYSTEM_EVENT_MAX) :
    (∀ i, i < g_system_event_handle_table.length →
        (table_entry i).event_id = i)
    ∧ esp_system_event_handler env st (some e)
        = esp_wifi_post_event_to_user env
            (runHandlerOpt (table_entry e.event_id).event_handle env st e) e := by
  refine ⟨table_entry_kind, ?_⟩
  have hg : e.event_id < SYSTEM_EVENT_MAX ∧
      (table_entry e.event_id).event_id = e.event_id :=
    ⟨hin, table_entry_kind e.event_id (Nat.lt_trans hin (by decide))⟩
  simp only [esp_system_event_handler]
  rw [if_pos hg]
  have hdbg : (esp_system_event_debug st (some e)).2 = st := by
    simp only [esp_system_event_debug]
    rw [if_pos hin]
  rw [hdbg]

theorem dispatch_table_self_consistent_witness :
    esp_system_event_handler envOK st0 (some evConn)
      = esp_wifi_post_event_to_user envOK
          (runHandlerOpt (table_entry evConn.event_id).event_handle envOK st0
            evConn) evConn :=
  (dispatch_table_self_consistent envOK st0 evConn (by decide)).2

end EspEvent
